import Mathlib

/-!
Verification of the benchmark-execution harness `scripts/run.py`
(scala-community-bench) against its natural-language specification.

The script is shallowly embedded:
* `where_` embeds the function `where(cmd)` (the spec's PathResolver).
  The ambient OS state is passed in explicitly: `isFile` stands for
  `os.path.isfile`, and the value of `os.environ['PATH']` is passed as an
  `Option String` (`none` when the variable is absent from the environment,
  in which case the Python dictionary access raises `KeyError`).
* The harness targets POSIX (Python 2 `xrange`, `/`-separated paths, a
  literal `':'` classpath join), so `os.pathsep` is the constant `":"`.
* The `__main__` block is embedded as `mainPy`, a pure function from the
  resolved tool locations, a process oracle (giving each spawned command
  line its exit code and captured standard output) and the static
  configuration to the ordered trace of observable side effects (`Event`
  list) plus the terminal outcome (`none` = ran to completion / exit 0,
  `some e` = an uncaught Python exception aborted the harness).
  Reads of the per-benchmark `input/` and `output/` files are modelled as
  total functions in the configuration; they produce no events.
* The result storage (the `mkdir` helper plus the `open(...,'w+')` write,
  the spec's `ResultStore.put`) is embedded over an explicit filesystem
  state `FS`: an association list from paths (component lists) to entries
  (directory, or file with content).
-/

/-- Python exceptions the script can raise, as far as the embedding needs
to distinguish them. -/
inductive PyErr where
  /-- `KeyError`, from `os.environ['PATH']` when `PATH` is absent. -/
  | keyError : PyErr
  /-- `subprocess.CalledProcessError` with the exit code and the captured
  output, raised by `subprocess.check_output` on a non-zero exit. -/
  | calledProcessError (code : Nat) (output : String) : PyErr
  /-- `AttributeError`, the exception an unresolved executable slot
  causes under Python 2: the forked child calls `os.execvp(None, cmd)`,
  which fails at `posixpath.split(None)` with `AttributeError`
  ('NoneType' object has no attribute 'rfind'), and `subprocess`
  re-raises it in the parent. -/
  | attributeError : PyErr
  /-- `OSError` from a failed process launch (e.g. executable not found). -/
  | osError : PyErr
  deriving DecidableEq, Repr

/-- `os.pathsep` on the POSIX platform the script targets. -/
def pathsep : String := ":"

/-- Python `str.split(sep)` for a one-character separator `sep`: cut at
every occurrence, never merging; the empty string splits to `[""]`. -/
def splitChar (sep : Char) : List Char → List (List Char)
  | [] => [[]]
  | c :: rest =>
      match splitChar sep rest with
      | [] => if c = sep then [[], []] else [[c]]
      | g :: gs => if c = sep then [] :: g :: gs else (c :: g) :: gs

/-- Does the string start with `'/'` (a POSIX-absolute path)? -/
def startsWithSlash (s : String) : Bool :=
  match s.data with
  | c :: _ => c = '/'
  | [] => false

/-- Does the string end with `'/'`? -/
def endsWithSlash (s : String) : Bool :=
  match s.data.getLast? with
  | some c => c = '/'
  | none => false

/-- `os.path.join(a, b)` for the POSIX flavour: an empty first component is
dropped, an absolute second component replaces the first, and exactly one
`'/'` separates the two otherwise. -/
def pathJoin (a b : String) : String :=
  if a = "" then b
  else if startsWithSlash b then b
  else if endsWithSlash a then a ++ b
  else a ++ "/" ++ b

/-- The candidate-directory list of `where`:
`os.environ['PATH'].split(os.pathsep)`. -/
def wherePaths (pathVar : String) : List String :=
  (splitChar ':' pathVar.data).map String.mk

/-- Embedding of `where(cmd)` (lines 17-27): return `cmd` if it is an
existing regular file, otherwise scan the `PATH` directories in order and
return the first `directory/cmd` that is a regular file, else `None`.
`pathVar = none` means `PATH` is absent, so `os.environ['PATH']` raises
`KeyError`. -/
def where_ (isFile : String → Bool) (pathVar : Option String) (cmd : String) :
    Except PyErr (Option String) :=
  if isFile cmd then .ok (some cmd)
  else
    match pathVar with
    | none => .error .keyError
    | some s =>
        .ok ((wherePaths s).findSome? fun p =>
          let f := pathJoin p cmd
          if isFile f then some f else none)

/-- A subprocess argument list; an element is a Python string or `None`
(the value an unresolved `where` search leaves in `java` / `sbt`). -/
def Command := List (Option String)
deriving DecidableEq

/-- What the operating system reports for one spawned process: an exit
code with the captured standard output, or a failure to launch. -/
inductive ProcOutcome where
  | res (exitCode : Nat) (output : String) : ProcOutcome
  | launchFail : ProcOutcome
  deriving DecidableEq

/-- A process oracle: the external world's behaviour for each command
line the harness may spawn. -/
def ProcOracle := Command → ProcOutcome

/-- Embedding of `run(cmd)` (lines 29-31): `subprocess.check_output(cmd)`.
A `None` executable slot — the only `None` this script can produce, left
by an unresolved `where('java')` — makes the Python 2 forked child fail
in `os.execvp(None, cmd)` at `posixpath.split(None)` with
`AttributeError`, re-raised in the parent. `OSError` models a launch
failure of a real executable, a non-zero exit raises
`CalledProcessError` carrying the captured output, and exit 0 returns
the captured standard output. (The `>>>` echo is recorded as the
`launch` event by the callers.) -/
def runPy (exec : ProcOracle) (cmd : Command) : Except PyErr String :=
  if cmd.head? = some none then .error .attributeError
  else
    match exec cmd with
    | .launchFail => .error .osError
    | .res code out =>
        if code = 0 then .ok out else .error (.calledProcessError code out)

/-- `java_opts` (line 39): the fixed heap-bound flags. -/
def java_opts : List String := ["-Xms1024M", "-Xmx1024M"]

/-- Line 41. -/
def scalaVersion : String := "2.11.12"

/-- Line 42: `'.'.join(scalaVersion.split('.')[:2])`. -/
def scalaBinaryVersion : String :=
  String.intercalate "." (((splitChar '.' scalaVersion.data).map String.mk).take 2)

/-- `classpath` (lines 44-47): the two resolved library paths, in order.
`os.path.abspath` resolves against the working directory and
`os.path.expanduser` against the home directory; both directories are
passed in explicitly. -/
def classpath (cwd home : String) : List String :=
  [pathJoin cwd ("target/scala-" ++ scalaBinaryVersion ++ "/classes"),
   pathJoin home (".ivy2/cache/org.scala-lang/scala-library/jars/scala-library-"
     ++ scalaVersion ++ ".jar")]

/-- The benchmark suite (lines 49-65). -/
def benchmarks : List String :=
  ["bounce.BounceBenchmark", "brainfuck.BrainfuckBenchmark", "cd.CDBenchmark",
   "deltablue.DeltaBlueBenchmark", "gcbench.GCBenchBenchmark",
   "json.JsonBenchmark", "kmeans.KmeansBenchmark", "list.ListBenchmark",
   "mandelbrot.MandelbrotBenchmark", "nbody.NbodyBenchmark",
   "permute.PermuteBenchmark", "queens.QueensBenchmark",
   "richards.RichardsBenchmark", "sudoku.SudokuBenchmark",
   "tracer.TracerBenchmark"]

/-- Line 67. -/
def runs : Nat := 1

/-- Line 68. -/
def iterations : Nat := 1

/-- Observable side effects of the `__main__` block, in program order. -/
inductive Event where
  /-- `open(path, 'w'/'w+')` followed by a full write of `content`. -/
  | writeFileEv (path : String) (content : String) : Event
  /-- `mkdir(path)`: idempotent directory creation. -/
  | mkdirEv (path : String) : Event
  /-- A `run(cmd)` process-spawn attempt (the echoed command line). -/
  | launch (cmd : Command) : Event
  deriving DecidableEq

/-- The content written to `build.sbt` (lines 71-72). -/
def buildSbtContent : String := "scalaVersion := \"" ++ scalaVersion ++ "\""

/-- `compile()` (lines 33-34) runs the literal command `['sbt', 'compile']`. -/
def compileCmd : Command := [some "sbt", some "compile"]

/-- The benchmark command line (lines 83-86):
`[java] + java_opts + ['-classpath', ':'.join(classpath)]
 + [bench, str(iterations), input, output]`. -/
def benchCmd (java : Option String) (cp : List String) (bench : String)
    (iters : Nat) (inp outp : String) : Command :=
  [java] ++ java_opts.map some
    ++ [some "-classpath", some (String.intercalate ":" cp)]
    ++ [some bench, some (toString iters), some inp, some outp]

/-- The static configuration of a harness run: the suite and the counts
(lines 49-68 hold the source's values, kept general here so the loop can
be analysed for every configuration), the working and home directories the
library paths resolve against, and the already-stripped contents of the
per-benchmark `input/` and `output/` files (lines 75-80). -/
structure Config where
  benchmarks : List String
  runs : Nat
  iterations : Nat
  cwd : String
  home : String
  inputs : String → String
  outputs : String → String

/-- The repetition loop (lines 81-89) for one benchmark, with the command
line already built (it does not depend on the loop index): `k` remaining
repetitions starting at index `start`; each one runs
`mkdir('results/<bench>/')`, echoes and spawns `cmd`, and on success
writes the captured output to `results/<bench>/<n>`; a raised exception
stops the loop and propagates. -/
def repLoop (exec : ProcOracle) (cmd : Command) (bench : String) :
    Nat → Nat → List Event × Option PyErr
  | _, 0 => ([], none)
  | start, k + 1 =>
      let pre := [Event.mkdirEv ("results/" ++ bench ++ "/"), Event.launch cmd]
      match runPy exec cmd with
      | .error e => (pre, some e)
      | .ok res =>
          let rest := repLoop exec cmd bench (start + 1) k
          (pre ++ Event.writeFileEv ("results/" ++ bench ++ "/" ++ toString start) res
             :: rest.1,
           rest.2)

/-- The outer loop over the suite (lines 74-89): per benchmark, read its
input and expected output (modelled as the total functions `inputs`,
`outputs`; no events), then run the repetition loop; a raised exception
stops the iteration and propagates. -/
def benchLoop (exec : ProcOracle) (java : Option String) (cp : List String)
    (iters : Nat) (inputs outputs : String → String) (runsN : Nat) :
    List String → List Event × Option PyErr
  | [] => ([], none)
  | b :: rest =>
      let cmd := benchCmd java cp b iters (inputs b) (outputs b)
      let r := repLoop exec cmd b 0 runsN
      match r.2 with
      | some e => (r.1, some e)
      | none =>
          let r2 := benchLoop exec java cp iters inputs outputs runsN rest
          (r.1 ++ r2.1, r2.2)

set_option linter.unusedVariables false in
/-- The `__main__` block (lines 70-89). `sbt` and `java` are the values
left by the module-level resolutions `sbt = where('sbt')` and
`java = where('java')` (lines 36-37); `sbt` is never read again, since
`compile()` invokes the literal name `'sbt'`. The block writes
`build.sbt`, invokes the build (aborting with the raised exception on
failure), then runs the suite loop. The result is the event trace in
program order and the terminal outcome (`none` = completed, exit 0). -/
def mainPy (sbt java : Option String) (exec : ProcOracle) (cfg : Config) :
    List Event × Option PyErr :=
  let pre := [Event.writeFileEv "build.sbt" buildSbtContent, Event.launch compileCmd]
  match runPy exec compileCmd with
  | .error e => (pre, some e)
  | .ok _ =>
      let r := benchLoop exec java (classpath cfg.cwd cfg.home) cfg.iterations
        cfg.inputs cfg.outputs cfg.runs cfg.benchmarks
      (pre ++ r.1, r.2)

/-- A process oracle under which every spawn succeeds with output `"42"`. -/
def execOk : ProcOracle := fun _ => .res 0 "42"

/-- A process oracle under which every spawn exits 1 (so the build does). -/
def execBuildFail : ProcOracle := fun _ => .res 1 "compile error"

/-- A process oracle under which the build succeeds but every benchmark
repetition exits 1 with output `"boom"`. -/
def execRepFail : ProcOracle :=
  fun c => if c = compileCmd then .res 0 "ok" else .res 1 "boom"

/-- A one-benchmark configuration (the spec's end-to-end scenario values,
with one repetition). -/
def cfgOne : Config :=
  { benchmarks := ["bounce.BounceBenchmark"], runs := 1, iterations := 1,
    cwd := "/work", home := "/home/user",
    inputs := fun _ => "100", outputs := fun _ => "1331" }

/-- `cfgOne` with a repetition count of zero. -/
def cfgZero : Config :=
  { benchmarks := ["bounce.BounceBenchmark"], runs := 0, iterations := 1,
    cwd := "/work", home := "/home/user",
    inputs := fun _ => "100", outputs := fun _ => "1331" }

/-- The command line of `cfgOne`'s single benchmark. -/
def cmdOne : Command :=
  benchCmd (some "/usr/bin/java") (classpath cfgOne.cwd cfgOne.home)
    "bounce.BounceBenchmark" cfgOne.iterations
    (cfgOne.inputs "bounce.BounceBenchmark") (cfgOne.outputs "bounce.BounceBenchmark")

/-- A filesystem entry: a directory, or a regular file with its content. -/
inductive Entry where
  | dir : Entry
  | file (content : String) : Entry
  deriving DecidableEq

/-- The error codes distinguished by `mkdir` (lines 8-15). -/
inductive OSErr where
  | EEXIST : OSErr
  | ENOENT : OSErr
  | ENOTDIR : OSErr
  deriving DecidableEq

/-- Filesystem state: an association list from paths (component lists,
e.g. `["results", bench, "0"]`, normalised, no trailing-slash component)
to entries. `setEntry` keeps keys unique, so list equality of states is
meaningful. -/
def FS := List (List String × Entry)
deriving DecidableEq

/-- Path lookup (first binding wins). -/
def lookupFS : FS → List String → Option Entry
  | [], _ => none
  | (k, v) :: rest, p => if k = p then some v else lookupFS rest p

/-- Create or replace the entry at `p` (canonically: bind `p` in front and
drop any older binding). -/
def setEntry (fs : FS) (p : List String) (e : Entry) : FS :=
  (p, e) :: fs.filter fun x => !(x.1 == p)

/-- `os.mkdir`: create one directory; `EEXIST` when the path already
exists, `ENOENT` / `ENOTDIR` when the parent is missing or is a file (a
single-component path is created under the working directory). -/
def mkdirOne (fs : FS) (p : List String) : FS × Option OSErr :=
  if lookupFS fs p ≠ none then (fs, some .EEXIST)
  else if p.dropLast = [] then (setEntry fs p .dir, none)
  else if lookupFS fs p.dropLast = some .dir then (setEntry fs p .dir, none)
  else if lookupFS fs p.dropLast = none then (fs, some .ENOENT)
  else (fs, some .ENOTDIR)

/-- `os.makedirs` (Python 2): when the parent prefix is nonempty and does
not exist, recursively create it (swallowing only `EEXIST` from the
recursive call), then `os.mkdir` the full path. Errors carry the state
reached so far, mirroring exceptions that leave earlier side effects in
place. The recursion is on a fuel bounding the path length (the recursive
argument `p.dropLast` is shorter than `p`). -/
def makedirsAux (fs : FS) (p : List String) : Nat → FS × Option OSErr
  | 0 => mkdirOne fs p
  | fuel + 1 =>
      if p.dropLast = [] then mkdirOne fs p
      else if lookupFS fs p.dropLast = none then
        if (makedirsAux fs p.dropLast fuel).2 = none
            ∨ (makedirsAux fs p.dropLast fuel).2 = some OSErr.EEXIST then
          mkdirOne (makedirsAux fs p.dropLast fuel).1 p
        else makedirsAux fs p.dropLast fuel
      else mkdirOne fs p

/-- `os.makedirs(p)`. -/
def makedirs (fs : FS) (p : List String) : FS × Option OSErr :=
  makedirsAux fs p p.length

/-- Embedding of `mkdir(path)` (lines 8-15): `os.makedirs(path)`,
swallowing the error exactly when it is `EEXIST` and the path is (still) a
directory; anything else is re-raised. -/
def mkdirPy (fs : FS) (p : List String) : FS × Option OSErr :=
  if (makedirs fs p).2 = none then makedirs fs p
  else if (makedirs fs p).2 = some OSErr.EEXIST
      ∧ lookupFS (makedirs fs p).1 p = some .dir then
    ((makedirs fs p).1, none)
  else makedirs fs p

/-- The result-file path `results/<bench>/<n>` of lines 88-89. -/
def resultFile (bench : String) (n : Nat) : List String :=
  ["results", bench, toString n]

/-- The spec's `ResultStore.put`: `mkdir('results/<bench>/')` (line 82)
followed by the `open('results/<bench>/<n>', 'w+')` write of the captured
payload (lines 88-89); the `'w+'` mode truncates, so the file entry is
replaced outright. A `mkdir` error propagates. -/
def put (fs : FS) (bench : String) (n : Nat) (payload : String) : FS × Option OSErr :=
  if (mkdirPy fs ["results", bench]).2 = none then
    (setEntry (mkdirPy fs ["results", bench]).1 (resultFile bench n) (.file payload),
      none)
  else mkdirPy fs ["results", bench]

/-- A first sanity check of the embedding on a concrete search. -/
theorem where_finds_first :
    where_ (fun s => s == "/usr/bin/java" || s == "/opt/bin/java")
      (some "/usr/bin:/opt/bin") "java" = .ok (some "/usr/bin/java") := by
  rfl

/-- Helper: a `findSome?` scan over a list where the selector yields
`none` everywhere finds nothing. -/
theorem findSome?_none_of_all {α β : Type} (f : α → Option β) :
    ∀ l : List α, (∀ a ∈ l, f a = none) → l.findSome? f = none
  | [], _ => rfl
  | a :: l, h => by
      have ha := h a (List.mem_cons_self a l)
      have hl := findSome?_none_of_all f l fun x hx => h x (List.mem_cons_of_mem a hx)
      simp [List.findSome?_cons, ha, hl]

/-- C9: when the `PATH` environment variable is entirely absent,
`where(cmd)` applied to a name that is not itself an existing regular file
raises `KeyError` (from `os.environ['PATH']`) instead of returning `None`. -/
theorem where_keyError_when_PATH_absent (isFile : String → Bool) (cmd : String)
    (h : isFile cmd = false) :
    where_ isFile none cmd = .error .keyError := by
  simp [where_, h]

/-- Witness for C9 at a concrete input. -/
theorem where_keyError_when_PATH_absent_witness :
    where_ (fun _ => false) none "java" = .error .keyError :=
  where_keyError_when_PATH_absent (fun _ => false) "java" rfl

/-- C5 counterexample: the claim says an empty search-path variable yields
zero candidate directories. In fact `''.split(':')` yields the
one-element list `['']` — a single (empty-string) candidate directory. -/
theorem wherePaths_empty_not_zero_candidates :
    wherePaths "" = [""] ∧ wherePaths "" ≠ [] := by
  refine ⟨rfl, ?_⟩
  intro h
  rw [show wherePaths "" = [""] from rfl] at h
  exact List.cons_ne_nil _ _ h

/-- C5 amended: for a name that is not itself an existing regular file,
`where` returns `None` (NotFound, not an exception) whenever the name is a
regular file in none of the candidate directories of the search-path
variable; an empty search-path variable yields the single empty-string
candidate directory `""` (not zero candidates), whose joined candidate
path is the name itself, hence still `None` for any such name. -/
theorem where_notFound_when_no_candidate_matches
    (isFile : String → Bool) (s cmd : String)
    (h1 : isFile cmd = false)
    (h2 : ∀ p ∈ wherePaths s, isFile (pathJoin p cmd) = false) :
    where_ isFile (some s) cmd = .ok none ∧
    where_ isFile (some "") cmd = .ok none ∧
    wherePaths "" = [""] := by
  refine ⟨?_, ?_, rfl⟩
  · have : ((wherePaths s).findSome? fun p =>
        let f := pathJoin p cmd
        if isFile f then some f else none) = none := by
      apply findSome?_none_of_all
      intro p hp
      simp [h2 p hp]
    simp [where_, h1, this]
  · have hjoin : pathJoin "" cmd = cmd := by simp [pathJoin]
    simp [where_, h1, wherePaths, splitChar, hjoin]

/-- Witness for the amended C5 at a concrete input. -/
theorem where_notFound_when_no_candidate_matches_witness :
    where_ (fun _ => false) (some "/usr/bin:/opt/bin") "java" = .ok none ∧
    where_ (fun _ => false) (some "") "java" = .ok none ∧
    wherePaths "" = [""] :=
  where_notFound_when_no_candidate_matches (fun _ => false)
    "/usr/bin:/opt/bin" "java" rfl (fun _ _ => rfl)

/-- Every event of the repetition loop is the benchmark's `mkdir`, the
echo/spawn of its (fixed) command line, or a result-file write of an
output captured from a successful run of that command line. -/
theorem repLoop_event_mem (exec : ProcOracle) (cmd : Command) (bench : String) :
    ∀ k start, ∀ e ∈ (repLoop exec cmd bench start k).1,
      e = Event.mkdirEv ("results/" ++ bench ++ "/") ∨ e = Event.launch cmd ∨
      ∃ (n : Nat) (res : String), runPy exec cmd = .ok res ∧
        e = Event.writeFileEv ("results/" ++ bench ++ "/" ++ toString n) res
  | 0, start => by simp [repLoop]
  | k + 1, start => by
      intro e he
      rw [repLoop] at he
      split at he
      · simp only [List.mem_cons, List.mem_singleton] at he
        rcases he with h | h | h
        · exact Or.inl h
        · exact Or.inr (Or.inl h)
        · exact absurd h (by simp)
      · rename_i res hr
        simp only [List.cons_append, List.nil_append, List.mem_cons] at he
        rcases he with h | h | h | h
        · exact Or.inl h
        · exact Or.inr (Or.inl h)
        · exact Or.inr (Or.inr ⟨start, res, hr, h⟩)
        · exact repLoop_event_mem exec cmd bench k (start + 1) e h

/-- If the repetition loop ran to completion with at least one
repetition, the spawned command line succeeded. -/
theorem repLoop_completed_ok (exec : ProcOracle) (cmd : Command) (bench : String)
    (k start : Nat) (h : (repLoop exec cmd bench start (k + 1)).2 = none) :
    ∃ o, runPy exec cmd = .ok o := by
  rw [repLoop] at h
  rcases hr : runPy exec cmd with err | res
  all_goals rw [hr] at h
  · simp at h
  · exact ⟨res, rfl⟩

/-- Every event of the suite loop belongs to the repetition loop of one of
the listed benchmarks. -/
theorem benchLoop_event_mem (exec : ProcOracle) (java : Option String)
    (cp : List String) (iters : Nat) (inputs outputs : String → String)
    (runsN : Nat) :
    ∀ bl, ∀ e ∈ (benchLoop exec java cp iters inputs outputs runsN bl).1,
      ∃ b ∈ bl,
        e ∈ (repLoop exec (benchCmd java cp b iters (inputs b) (outputs b)) b 0 runsN).1
  | [] => by simp [benchLoop]
  | b :: rest => by
      intro e he
      rw [benchLoop] at he
      rcases h2 : (repLoop exec (benchCmd java cp b iters (inputs b) (outputs b)) b 0 runsN).2
        with _ | err
      all_goals rw [h2] at he
      · simp only [List.mem_append] at he
        rcases he with h | h
        · exact ⟨b, List.mem_cons_self b rest, h⟩
        · obtain ⟨b2, hb2, hmem⟩ :=
            benchLoop_event_mem exec java cp iters inputs outputs runsN rest e h
          exact ⟨b2, List.mem_cons_of_mem b hb2, hmem⟩
      · exact ⟨b, List.mem_cons_self b rest, he⟩

/-- If the suite loop ran to completion, every command line it echoed was
spawned successfully. -/
theorem benchLoop_completed_launch_ok (exec : ProcOracle) (java : Option String)
    (cp : List String) (iters : Nat) (inputs outputs : String → String)
    (runsN : Nat) :
    ∀ bl, (benchLoop exec java cp iters inputs outputs runsN bl).2 = none →
      ∀ c, Event.launch c ∈ (benchLoop exec java cp iters inputs outputs runsN bl).1 →
        ∃ o, runPy exec c = .ok o
  | [] => by simp [benchLoop]
  | b :: rest => by
      intro hnone c hc
      rw [benchLoop] at hnone hc
      rcases h2 : (repLoop exec (benchCmd java cp b iters (inputs b) (outputs b)) b 0 runsN).2
        with _ | err
      all_goals rw [h2] at hnone hc
      · simp only [List.mem_append] at hc
        rcases hc with h | h
        · obtain hcls := repLoop_event_mem exec
            (benchCmd java cp b iters (inputs b) (outputs b)) b runsN 0 _ h
          rcases hcls with h1 | h1 | ⟨n, res, hres, h1⟩
          · exact absurd h1 (by simp)
          · cases h1
            rcases runsN with _ | k
            · rw [repLoop] at h
              simp at h
            · exact repLoop_completed_ok exec _ b k 0 h2
          · exact absurd h1 (by simp)
        · exact benchLoop_completed_launch_ok exec java cp iters inputs outputs runsN rest
            hnone c h
      · simp at hnone

/-- A benchmark command line whose executable slot is `None` (unresolved
runtime) makes `run` fail with the re-raised `AttributeError` from the
child's `os.execvp`; no benchmark process comes into being. -/
theorem runPy_unresolved_runtime (exec : ProcOracle) (cp : List String)
    (b : String) (iters : Nat) (inp outp : String) :
    runPy exec (benchCmd none cp b iters inp outp) = .error .attributeError := rfl

/-- C1 counterexample: with both module-level resolutions failed (`where`
returned `None` for `sbt` and for `java`), the orchestrator does not
abort at Init: it still writes `build.sbt` and still invokes the build. -/
theorem mainPy_no_abort_at_init_on_resolution_failure :
    Event.writeFileEv "build.sbt" buildSbtContent ∈ (mainPy none none execOk cfgOne).1 ∧
    Event.launch compileCmd ∈ (mainPy none none execOk cfgOne).1 := by
  decide

/-- C1 amended: the orchestrator never consults the resolution results at
Init: whatever `where` returned, `build.sbt` is written and the build is
invoked (with the literal name `'sbt'`) as the first two actions; an
unresolved runtime (`java = None`) surfaces only later, as the uncaught
`AttributeError` out of `os.execvp(None, ...)` when the first benchmark
repetition's command line is handed to `subprocess`, after the build has
already run. -/
theorem mainPy_resolution_never_checked (sbt java : Option String)
    (exec : ProcOracle) (cfg : Config) (out b : String) (bl : List String) (k : Nat)
    (hb : runPy exec compileCmd = .ok out)
    (hbench : cfg.benchmarks = b :: bl) (hruns : cfg.runs = k + 1)
    (hjava : java = none) :
    (∃ rest, (mainPy sbt java exec cfg).1 =
      Event.writeFileEv "build.sbt" buildSbtContent :: Event.launch compileCmd :: rest) ∧
    (mainPy sbt java exec cfg).2 = some PyErr.attributeError := by
  subst hjava
  constructor
  · simp only [mainPy]
    rw [hb]
    exact ⟨_, rfl⟩
  · simp only [mainPy]
    rw [hb]
    simp only [hbench, hruns, benchLoop, repLoop, runPy_unresolved_runtime]

/-- Witness for the amended C1 at a concrete input. -/
theorem mainPy_resolution_never_checked_witness :
    (∃ rest, (mainPy none none execOk cfgOne).1 =
      Event.writeFileEv "build.sbt" buildSbtContent :: Event.launch compileCmd :: rest) ∧
    (mainPy none none execOk cfgOne).2 = some PyErr.attributeError :=
  mainPy_resolution_never_checked none none execOk cfgOne "42"
    "bounce.BounceBenchmark" [] 0 rfl rfl rfl rfl

/-- C2 counterexample: under a continue-on-error policy the harness would
complete (exit 0) even though a repetition failed; in fact a single failed
repetition (exit 1, output `"boom"`) raises `CalledProcessError`, which no
orchestrator level catches, and the harness aborts with it. -/
theorem mainPy_crashes_on_failed_repetition :
    (mainPy (some "/usr/bin/sbt") (some "/usr/bin/java") execRepFail cfgOne).2 =
      some (PyErr.calledProcessError 1 "boom") := by
  decide

/-- C2 amended: a failed benchmark repetition is not caught anywhere: the
raised error propagates and aborts the whole harness. Consequently the
harness finishes with exit 0 only when every spawned command line — the
build and every repetition — succeeded. -/
theorem mainPy_completed_all_launches_ok (sbt java : Option String)
    (exec : ProcOracle) (cfg : Config)
    (h : (mainPy sbt java exec cfg).2 = none) :
    ∀ c, Event.launch c ∈ (mainPy sbt java exec cfg).1 → ∃ o, runPy exec c = .ok o := by
  intro c hc
  simp only [mainPy] at h hc
  rcases hb : runPy exec compileCmd with e | out
  all_goals rw [hb] at h hc
  · simp at h
  · simp only [List.cons_append, List.nil_append, List.mem_cons] at hc
    rcases hc with h1 | h1 | h1
    · exact absurd h1 (by simp)
    · injection h1 with h1
      subst h1
      exact ⟨out, hb⟩
    · exact benchLoop_completed_launch_ok exec java (classpath cfg.cwd cfg.home)
        cfg.iterations cfg.inputs cfg.outputs cfg.runs cfg.benchmarks h c h1

/-- Witness for the amended C2 at a concrete input: the harness completed
under `execOk`, so its benchmark launch did succeed. -/
theorem mainPy_completed_all_launches_ok_witness :
    ∃ o, runPy execOk cmdOne = Except.ok o :=
  mainPy_completed_all_launches_ok (some "/usr/bin/sbt") (some "/usr/bin/java")
    execOk cfgOne (by decide) cmdOne (by decide)

/-- Helper: every launched command line in the whole trace is the build
command or the benchmark command of one of the configured benchmarks. -/
theorem mainPy_launch_mem (sbt java : Option String) (exec : ProcOracle)
    (cfg : Config) (c : Command)
    (hc : Event.launch c ∈ (mainPy sbt java exec cfg).1) :
    c = compileCmd ∨
    ∃ b ∈ cfg.benchmarks,
      c = benchCmd java (classpath cfg.cwd cfg.home) b cfg.iterations
        (cfg.inputs b) (cfg.outputs b) := by
  simp only [mainPy] at hc
  rcases hb : runPy exec compileCmd with e | out
  all_goals rw [hb] at hc
  · simp only [List.mem_cons, List.mem_singleton] at hc
    rcases hc with h1 | h1 | h1
    · exact absurd h1 (by simp)
    · injection h1 with h1
      exact Or.inl h1
    · exact absurd h1 (by simp)
  · simp only [List.cons_append, List.nil_append, List.mem_cons] at hc
    rcases hc with h1 | h1 | h1
    · exact absurd h1 (by simp)
    · injection h1 with h1
      exact Or.inl h1
    · obtain ⟨b, hbmem, hmem⟩ := benchLoop_event_mem exec java
        (classpath cfg.cwd cfg.home) cfg.iterations cfg.inputs cfg.outputs
        cfg.runs cfg.benchmarks _ h1
      rcases repLoop_event_mem exec _ _ cfg.runs 0 _ hmem with h2 | h2 | ⟨n, res, _, h2⟩
      · exact absurd h2 (by simp)
      · injection h2 with h2
        exact Or.inr ⟨b, hbmem, h2⟩
      · exact absurd h2 (by simp)

/-- C3: every benchmark invocation in the trace is deterministic in the
spec and resolved paths and has exactly this shape: the runtime, then the
fixed heap-bound flags, then the `-classpath` option whose value joins the
resolved library paths with the platform path separator in the given
order, then the positional arguments: benchmark identifier, iteration
count, input payload, expected-output payload, in that order. -/
theorem mainPy_invocation_shape (sbt java : Option String) (exec : ProcOracle)
    (cfg : Config) (c : Command)
    (hc : Event.launch c ∈ (mainPy sbt java exec cfg).1) :
    c = compileCmd ∨
    ∃ b ∈ cfg.benchmarks,
      c = [java] ++ java_opts.map some
        ++ [some "-classpath",
            some (String.intercalate pathsep (classpath cfg.cwd cfg.home))]
        ++ [some b, some (toString cfg.iterations),
            some (cfg.inputs b), some (cfg.outputs b)] := by
  rcases mainPy_launch_mem sbt java exec cfg c hc with h | ⟨b, hb, h⟩
  · exact Or.inl h
  · exact Or.inr ⟨b, hb, h⟩

/-- Witness for C3 at a concrete input. -/
theorem mainPy_invocation_shape_witness :
    cmdOne = compileCmd ∨
    ∃ b ∈ cfgOne.benchmarks,
      cmdOne = [some "/usr/bin/java"] ++ java_opts.map some
        ++ [some "-classpath",
            some (String.intercalate pathsep (classpath cfgOne.cwd cfgOne.home))]
        ++ [some b, some (toString cfgOne.iterations),
            some (cfgOne.inputs b), some (cfgOne.outputs b)] :=
  mainPy_invocation_shape (some "/usr/bin/sbt") (some "/usr/bin/java")
    execOk cfgOne cmdOne (by decide)

/-- C4: a non-zero build exit raises `CalledProcessError` carrying the
captured output, and the whole run aborts before any benchmark is
processed: the trace is exactly the `build.sbt` write and the build
invocation — no benchmark process is launched, no result directory is
created, and no file under the results root is written. -/
theorem mainPy_build_failure_aborts (sbt java : Option String)
    (exec : ProcOracle) (cfg : Config) (code : Nat) (out : String)
    (hcode : code ≠ 0) (hb : exec compileCmd = .res code out) :
    mainPy sbt java exec cfg =
      ([Event.writeFileEv "build.sbt" buildSbtContent, Event.launch compileCmd],
        some (PyErr.calledProcessError code out)) ∧
    (∀ c, Event.launch c ∈ (mainPy sbt java exec cfg).1 → c = compileCmd) ∧
    (∀ p, Event.mkdirEv p ∉ (mainPy sbt java exec cfg).1) ∧
    (∀ p s, Event.writeFileEv p s ∈ (mainPy sbt java exec cfg).1 → p = "build.sbt") := by
  have hrun : runPy exec compileCmd = .error (.calledProcessError code out) := by
    simp [runPy, hb, hcode]
    decide
  have hmain : mainPy sbt java exec cfg =
      ([Event.writeFileEv "build.sbt" buildSbtContent, Event.launch compileCmd],
        some (PyErr.calledProcessError code out)) := by
    simp only [mainPy]
    rw [hrun]
  refine ⟨hmain, ?_, ?_, ?_⟩
  · intro c hc
    rw [hmain] at hc
    simp at hc
    exact hc
  · intro p hp
    rw [hmain] at hp
    simp at hp
  · intro p s hp
    rw [hmain] at hp
    simp at hp
    exact hp.1

/-- Witness for C4 at a concrete input. -/
theorem mainPy_build_failure_aborts_witness :
    mainPy (some "/usr/bin/sbt") (some "/usr/bin/java") execBuildFail cfgOne =
      ([Event.writeFileEv "build.sbt" buildSbtContent, Event.launch compileCmd],
        some (PyErr.calledProcessError 1 "compile error")) ∧
    (∀ c, Event.launch c ∈
        (mainPy (some "/usr/bin/sbt") (some "/usr/bin/java") execBuildFail cfgOne).1 →
      c = compileCmd) ∧
    (∀ p, Event.mkdirEv p ∉
        (mainPy (some "/usr/bin/sbt") (some "/usr/bin/java") execBuildFail cfgOne).1) ∧
    (∀ p s, Event.writeFileEv p s ∈
        (mainPy (some "/usr/bin/sbt") (some "/usr/bin/java") execBuildFail cfgOne).1 →
      p = "build.sbt") :=
  mainPy_build_failure_aborts (some "/usr/bin/sbt") (some "/usr/bin/java")
    execBuildFail cfgOne 1 "compile error" (by decide) rfl

/-- Helper: a repetition count of zero makes the suite loop a no-op. -/
theorem benchLoop_zero_runs (exec : ProcOracle) (java : Option String)
    (cp : List String) (iters : Nat) (inputs outputs : String → String) :
    ∀ bl, benchLoop exec java cp iters inputs outputs 0 bl = ([], none)
  | [] => rfl
  | b :: rest => by
      simp only [benchLoop, repLoop,
        benchLoop_zero_runs exec java cp iters inputs outputs rest, List.nil_append]

/-- C6: with a repetition count of zero the harness launches no benchmark
process, creates no result directory and writes no result file: the only
possible launch is the build, no `mkdir` happens at all, and the only file
written is `build.sbt`. -/
theorem mainPy_zero_repetitions_no_work (sbt java : Option String)
    (exec : ProcOracle) (cfg : Config) (h : cfg.runs = 0) :
    (∀ c, Event.launch c ∈ (mainPy sbt java exec cfg).1 → c = compileCmd) ∧
    (∀ p, Event.mkdirEv p ∉ (mainPy sbt java exec cfg).1) ∧
    (∀ p s, Event.writeFileEv p s ∈ (mainPy sbt java exec cfg).1 → p = "build.sbt") := by
  have htr : (mainPy sbt java exec cfg).1 =
      [Event.writeFileEv "build.sbt" buildSbtContent, Event.launch compileCmd] := by
    simp only [mainPy]
    rcases hb : runPy exec compileCmd with e | o
    · rfl
    · rw [h, benchLoop_zero_runs]
      rfl
  refine ⟨?_, ?_, ?_⟩
  · intro c hc
    rw [htr] at hc
    simp at hc
    exact hc
  · intro p hp
    rw [htr] at hp
    simp at hp
  · intro p s hp
    rw [htr] at hp
    simp at hp
    exact hp.1

/-- Witness for C6 at a concrete input. -/
theorem mainPy_zero_repetitions_no_work_witness :
    (∀ c, Event.launch c ∈
        (mainPy (some "/usr/bin/sbt") (some "/usr/bin/java") execOk cfgZero).1 →
      c = compileCmd) ∧
    (∀ p, Event.mkdirEv p ∉
        (mainPy (some "/usr/bin/sbt") (some "/usr/bin/java") execOk cfgZero).1) ∧
    (∀ p s, Event.writeFileEv p s ∈
        (mainPy (some "/usr/bin/sbt") (some "/usr/bin/java") execOk cfgZero).1 →
      p = "build.sbt") :=
  mainPy_zero_repetitions_no_work (some "/usr/bin/sbt") (some "/usr/bin/java")
    execOk cfgZero rfl

/-- C10: the build step invokes the literal command name `'sbt'`: the
build command line is the constant `['sbt', 'compile']`, the whole
behaviour of the harness is independent of the module-level `sbt`
resolution result, and this literal build invocation appears in every
trace. -/
theorem mainPy_build_uses_literal_sbt (sbt sbt2 java : Option String)
    (exec : ProcOracle) (cfg : Config) :
    compileCmd = [some "sbt", some "compile"] ∧
    mainPy sbt java exec cfg = mainPy sbt2 java exec cfg ∧
    Event.launch [some "sbt", some "compile"] ∈ (mainPy sbt java exec cfg).1 := by
  refine ⟨rfl, rfl, ?_⟩
  simp only [mainPy]
  rcases hb : runPy exec compileCmd with e | o
  · simp [compileCmd]
  · simp [compileCmd]

/-- Dropping all bindings of key `p` does not change lookups at `q ≠ p`. -/
theorem lookupFS_filter_ne (p q : List String) (hne : q ≠ p) :
    ∀ fs : FS, lookupFS (fs.filter fun x => !(x.1 == p)) q = lookupFS fs q
  | [] => rfl
  | (k, v) :: rest => by
      by_cases hk : k = p
      · subst hk
        have : ((k, v) :: rest).filter (fun x => !(x.1 == k)) =
            rest.filter fun x => !(x.1 == k) := by
          simp [List.filter_cons]
        rw [this, lookupFS_filter_ne k q hne rest]
        have hkq : k ≠ q := fun h => hne h.symm
        simp [lookupFS, hkq]
      · have : ((k, v) :: rest).filter (fun x => !(x.1 == p)) =
            (k, v) :: rest.filter fun x => !(x.1 == p) := by
          simp [List.filter_cons, hk]
        rw [this]
        by_cases hkq : k = q
        · simp [lookupFS, hkq]
        · simp [lookupFS, hkq, lookupFS_filter_ne p q hne rest]

/-- Lookup after `setEntry`. -/
theorem lookupFS_setEntry (fs : FS) (p q : List String) (e : Entry) :
    lookupFS (setEntry fs p e) q = if p = q then some e else lookupFS fs q := by
  by_cases h : p = q
  · simp [setEntry, lookupFS, h]
  · have hne : q ≠ p := fun hq => h hq.symm
    simp [setEntry, lookupFS, h, lookupFS_filter_ne p q hne fs]

/-- Re-binding the same entry at the same path is a no-op. -/
theorem setEntry_idem (fs : FS) (p : List String) (e : Entry) :
    setEntry (setEntry fs p e) p e = setEntry fs p e := by
  unfold setEntry
  have h1 : ((p, e) :: fs.filter fun x => !(x.1 == p)).filter (fun x => !(x.1 == p)) =
      (fs.filter fun x => !(x.1 == p)).filter fun x => !(x.1 == p) := by
    simp [List.filter_cons]
  rw [h1, List.filter_filter]
  have : (fun (x : List String × Entry) => !(x.1 == p) && !(x.1 == p)) =
      fun x => !(x.1 == p) := by
    funext x
    exact Bool.and_self _
  rw [this]

/-- `os.makedirs` on a two-component path, unfolded. -/
theorem makedirs_pair (fs : FS) (a b : String) :
    makedirs fs [a, b] =
      if lookupFS fs [a] = none then
        if (mkdirOne fs [a]).2 = none ∨ (mkdirOne fs [a]).2 = some OSErr.EEXIST then
          mkdirOne (mkdirOne fs [a]).1 [a, b]
        else mkdirOne fs [a]
      else mkdirOne fs [a, b] := rfl

/-- After a successful `mkdir('<a>/<b>')`, the path is a directory and its
parent entry exists in the resulting state. -/
theorem mkdirPy_pair_ok (fs fs1 : FS) (a b : String)
    (h : mkdirPy fs [a, b] = (fs1, none)) :
    lookupFS fs1 [a, b] = some Entry.dir ∧ lookupFS fs1 [a] ≠ none := by
  have hba : ([a] : List String) ≠ [a, b] := by simp
  by_cases hA : lookupFS fs [a] = none
  · have hone : mkdirOne fs [a] = (setEntry fs [a] Entry.dir, none) := by
      simp [mkdirOne, hA]
    have hga : lookupFS (setEntry fs [a] Entry.dir) [a] = some Entry.dir := by
      rw [lookupFS_setEntry, if_pos rfl]
    have hgb : lookupFS (setEntry fs [a] Entry.dir) [a, b] = lookupFS fs [a, b] := by
      rw [lookupFS_setEntry, if_neg hba]
    rcases hB : lookupFS fs [a, b] with _ | ent
    · have hone2 : mkdirOne (setEntry fs [a] Entry.dir) [a, b] =
          (setEntry (setEntry fs [a] Entry.dir) [a, b] Entry.dir, none) := by
        simp [mkdirOne, hgb, hB, hga]
      have hmk : makedirs fs [a, b] =
          (setEntry (setEntry fs [a] Entry.dir) [a, b] Entry.dir, none) := by
        rw [makedirs_pair, if_pos hA, hone]
        simpa using hone2
      rw [mkdirPy, hmk] at h
      simp at h
      subst h
      constructor
      · rw [lookupFS_setEntry, if_pos rfl]
      · rw [lookupFS_setEntry, if_neg (by simp), hga]
        simp
    · have hone2 : mkdirOne (setEntry fs [a] Entry.dir) [a, b] =
          (setEntry fs [a] Entry.dir, some OSErr.EEXIST) := by
        simp [mkdirOne, hgb, hB]
      have hmk : makedirs fs [a, b] = (setEntry fs [a] Entry.dir, some OSErr.EEXIST) := by
        rw [makedirs_pair, if_pos hA, hone]
        simpa using hone2
      rw [mkdirPy, hmk] at h
      rcases ent with _ | c
      · simp [hgb, hB] at h
        subst h
        exact ⟨by rw [hgb, hB], by rw [hga]; simp⟩
      · simp [hgb, hB] at h
  · have hgax : lookupFS fs [a] ≠ none := hA
    rcases hB : lookupFS fs [a, b] with _ | ent
    · rcases hx : lookupFS fs [a] with _ | x
      · exact absurd hx hA
      rcases x with _ | c
      · have hone : mkdirOne fs [a, b] = (setEntry fs [a, b] Entry.dir, none) := by
          simp [mkdirOne, hB, hx]
        have hmk : makedirs fs [a, b] = (setEntry fs [a, b] Entry.dir, none) := by
          rw [makedirs_pair, if_neg hA, hone]
        rw [mkdirPy, hmk] at h
        simp at h
        subst h
        constructor
        · rw [lookupFS_setEntry, if_pos rfl]
        · rw [lookupFS_setEntry, if_neg (by simp), hx]
          simp
      · have hone : mkdirOne fs [a, b] = (fs, some OSErr.ENOTDIR) := by
          simp [mkdirOne, hB, hx]
        have hmk : makedirs fs [a, b] = (fs, some OSErr.ENOTDIR) := by
          rw [makedirs_pair, if_neg hA, hone]
        rw [mkdirPy, hmk] at h
        simp at h
    · have hone : mkdirOne fs [a, b] = (fs, some OSErr.EEXIST) := by
        simp [mkdirOne, hB]
      have hmk : makedirs fs [a, b] = (fs, some OSErr.EEXIST) := by
        rw [makedirs_pair, if_neg hA, hone]
      rw [mkdirPy, hmk] at h
      rcases ent with _ | c
      · simp [hB] at h
        subst h
        exact ⟨hB, hA⟩
      · simp [hB] at h

/-- `mkdir` on a path that is already a directory (with an existing
parent entry) succeeds and leaves the state untouched. -/
theorem mkdirPy_pair_noop (fs : FS) (a b : String)
    (h1 : lookupFS fs [a] ≠ none) (h2 : lookupFS fs [a, b] = some Entry.dir) :
    mkdirPy fs [a, b] = (fs, none) := by
  have hone : mkdirOne fs [a, b] = (fs, some OSErr.EEXIST) := by
    simp [mkdirOne, h2]
  have hmk : makedirs fs [a, b] = (fs, some OSErr.EEXIST) := by
    rw [makedirs_pair, if_neg h1, hone]
  rw [mkdirPy, hmk]
  simp [h2]

/-- C7: `ResultStore.put` is idempotent: after a successful
`put fs bench n payload` produced the state `fs1`, running the same `put`
again succeeds and returns exactly the same state `fs1` — the existing
directory is accepted as success and the `'w+'` rewrite of the same
payload changes nothing. -/
theorem put_idempotent (fs fs1 : FS) (bench : String) (n : Nat) (payload : String)
    (h : put fs bench n payload = (fs1, none)) :
    put fs1 bench n payload = (fs1, none) := by
  have hfile_dir : resultFile bench n ≠ ["results", bench] := by simp [resultFile]
  have hfile_root : resultFile bench n ≠ ["results"] := by simp [resultFile]
  rcases hpm : mkdirPy fs ["results", bench] with ⟨fs0, e0⟩
  rw [put, hpm] at h
  rcases e0 with _ | e0
  · simp at h
    obtain ⟨hdir, hroot⟩ := mkdirPy_pair_ok fs fs0 "results" bench hpm
    subst h
    have hd1 : lookupFS (setEntry fs0 (resultFile bench n) (Entry.file payload))
        ["results", bench] = some Entry.dir := by
      rw [lookupFS_setEntry, if_neg hfile_dir, hdir]
    have hr1 : lookupFS (setEntry fs0 (resultFile bench n) (Entry.file payload))
        ["results"] ≠ none := by
      rw [lookupFS_setEntry, if_neg hfile_root]
      exact hroot
    have hnoop := mkdirPy_pair_noop
      (setEntry fs0 (resultFile bench n) (Entry.file payload)) "results" bench hr1 hd1
    rw [put, hnoop]
    simp [setEntry_idem]
  · simp at h

/-- Witness for C7 at a concrete input: the state reached by one `put`
on the empty filesystem is a fixed point of the same `put`. -/
theorem put_idempotent_witness :
    put ([((["results", "bounce.BounceBenchmark", "0"] : List String), Entry.file "42"),
          ((["results", "bounce.BounceBenchmark"] : List String), Entry.dir),
          ((["results"] : List String), Entry.dir)] : FS) "bounce.BounceBenchmark" 0 "42" =
      (([((["results", "bounce.BounceBenchmark", "0"] : List String), Entry.file "42"),
         ((["results", "bounce.BounceBenchmark"] : List String), Entry.dir),
         ((["results"] : List String), Entry.dir)] : FS), none) :=
  put_idempotent [] _ "bounce.BounceBenchmark" 0 "42" (by decide)

set_option linter.unusedVariables false in
/-- C8: re-running `put` at the same (identifier, index) with a different
payload succeeds, and the file entry afterwards is exactly the new
payload — no residue of the prior payload — while every other path is
untouched. -/
theorem put_overwrite (fs fs1 : FS) (bench : String) (n : Nat) (p1 p2 : String)
    (hne : p1 ≠ p2)
    (h : put fs bench n p1 = (fs1, none)) :
    put fs1 bench n p2 = (setEntry fs1 (resultFile bench n) (Entry.file p2), none) ∧
    lookupFS (setEntry fs1 (resultFile bench n) (Entry.file p2)) (resultFile bench n) =
      some (Entry.file p2) ∧
    ∀ q, q ≠ resultFile bench n →
      lookupFS (setEntry fs1 (resultFile bench n) (Entry.file p2)) q = lookupFS fs1 q := by
  have hfile_dir : resultFile bench n ≠ ["results", bench] := by simp [resultFile]
  have hfile_root : resultFile bench n ≠ ["results"] := by simp [resultFile]
  rcases hpm : mkdirPy fs ["results", bench] with ⟨fs0, e0⟩
  rw [put, hpm] at h
  rcases e0 with _ | e0
  · simp at h
    obtain ⟨hdir, hroot⟩ := mkdirPy_pair_ok fs fs0 "results" bench hpm
    subst h
    have hd1 : lookupFS (setEntry fs0 (resultFile bench n) (Entry.file p1))
        ["results", bench] = some Entry.dir := by
      rw [lookupFS_setEntry, if_neg hfile_dir, hdir]
    have hr1 : lookupFS (setEntry fs0 (resultFile bench n) (Entry.file p1))
        ["results"] ≠ none := by
      rw [lookupFS_setEntry, if_neg hfile_root]
      exact hroot
    have hnoop := mkdirPy_pair_noop
      (setEntry fs0 (resultFile bench n) (Entry.file p1)) "results" bench hr1 hd1
    refine ⟨?_, ?_, ?_⟩
    · rw [put, hnoop]
      simp
    · rw [lookupFS_setEntry, if_pos rfl]
    · intro q hq
      rw [lookupFS_setEntry, if_neg fun hh => hq hh.symm]
  · simp at h

/-- Witness for C8 at a concrete input. -/
theorem put_overwrite_witness :
    put ([((["results", "bounce.BounceBenchmark", "0"] : List String), Entry.file "42"),
          ((["results", "bounce.BounceBenchmark"] : List String), Entry.dir),
          ((["results"] : List String), Entry.dir)] : FS) "bounce.BounceBenchmark" 0 "43" =
      (setEntry ([((["results", "bounce.BounceBenchmark", "0"] : List String), Entry.file "42"),
          ((["results", "bounce.BounceBenchmark"] : List String), Entry.dir),
          ((["results"] : List String), Entry.dir)] : FS)
        (resultFile "bounce.BounceBenchmark" 0) (Entry.file "43"), none) ∧
    lookupFS (setEntry ([((["results", "bounce.BounceBenchmark", "0"] : List String), Entry.file "42"),
          ((["results", "bounce.BounceBenchmark"] : List String), Entry.dir),
          ((["results"] : List String), Entry.dir)] : FS)
        (resultFile "bounce.BounceBenchmark" 0) (Entry.file "43"))
      (resultFile "bounce.BounceBenchmark" 0) = some (Entry.file "43") ∧
    ∀ q, q ≠ resultFile "bounce.BounceBenchmark" 0 →
      lookupFS (setEntry ([((["results", "bounce.BounceBenchmark", "0"] : List String), Entry.file "42"),
            ((["results", "bounce.BounceBenchmark"] : List String), Entry.dir),
            ((["results"] : List String), Entry.dir)] : FS)
          (resultFile "bounce.BounceBenchmark" 0) (Entry.file "43")) q =
        lookupFS ([((["results", "bounce.BounceBenchmark", "0"] : List String), Entry.file "42"),
            ((["results", "bounce.BounceBenchmark"] : List String), Entry.dir),
            ((["results"] : List String), Entry.dir)] : FS) q :=
  put_overwrite [] _ "bounce.BounceBenchmark" 0 "42" "43" (by decide) (by decide)
